import Mathlib

/-!
Verification development for the nvim test runner
(src/test-runner/src/main.rs).

The Rust program is shallowly embedded as pure Lean functions:

* the persisted state file (`State`), the configuration (`TestConfig`)
  and the per-dependency descriptors (`TestDepedency`, keeping the
  spelling of the source) are plain structures;
* the effectful environment (git, the network, the local filesystem)
  is an explicit `Env` record of oracles; the mutable per-run data
  (the evolving new state, the set of materialized dependency
  directories, the collected dependency paths and the emitted
  clone/state-write events) is threaded through `RunSt`;
* fallible stages return `Except String`, mirroring the `Result`
  plumbing and the early `return Err(...)` exits of the source;
* `git clone URI PATH` is modelled as succeeding exactly when `PATH`
  does not already exist on disk (git refuses to clone into an
  existing non-empty directory; a previously materialized dependency
  directory is never empty), and `git reset --hard SHA` through the
  `resetOk` oracle.
-/

set_option autoImplicit false

namespace TestRunner

/-- A dependency descriptor from the configuration file
(struct `TestDepedency` in the source, spelling kept). -/
structure TestDepedency where
  uri : String
  branch : Option String
  sha : Option String
deriving Repr, DecidableEq

/-- One entry of the persisted state record
(struct `TestDepedencyState` in the source). -/
structure TestDepedencyState where
  uri : String
  hash : String
  branch : Option String
  sha : Option String
deriving Repr, DecidableEq

/-- The persisted version of the bundled test-utils script
(struct `LuaTestUtilsState`). -/
structure LuaTestUtilsState where
  version : String
deriving Repr, DecidableEq

/-- The persisted state record, `.test/state.json` (struct `State`). -/
structure State where
  test_dependencies : List TestDepedencyState
  lua_test_utils : Option LuaTestUtilsState
deriving Repr, DecidableEq

/-- The configuration file `nvim-test-runner.json` (struct `TestConfig`). -/
structure TestConfig where
  test_dependencies : Option (List TestDepedency)
  test_paths : Option (List String)
deriving Repr, DecidableEq

/-- Status of a path referenced by a local (`file:`) descriptor. -/
inductive LocalStat where
  | missing
  | notDir
  | dir
deriving Repr, DecidableEq

/-- Observable events of a resolution run: `git clone` invocations and
whole-record writes of the state file. -/
inductive Event where
  | cloneEv (uri : String) (path : String)
  | writeStateEv (s : State)
deriving Repr, DecidableEq

/-- The effectful environment of a run: the git/network/filesystem
oracles the program shells out to. -/
structure Env where
  /-- whether `git --version` succeeds -/
  gitInstalled : Bool
  /-- `git ls-remote URI`: `none` when the URI is unreachable or not a
  valid repository, otherwise the list of (ref name, commit hash)
  pairs parsed from its output -/
  lsRemote : String → Option (List (String × String))
  /-- whether `git reset --hard SHA` succeeds inside a fresh clone of
  the given URI -/
  resetOk : String → String → Bool
  /-- status of local-reference paths on the filesystem -/
  localStat : String → LocalStat
  /-- whether downloading `test-utils.lua` succeeds -/
  downloadOk : Bool
  /-- `CARGO_PKG_VERSION` of the running binary -/
  version : String

/-- Mutable data threaded through the dependency-resolution loop:
`new_state.test_dependencies`, the set of existing directories under
`.test/external-dep/`, the two collected dependency path lists and the
emitted events. -/
structure RunSt where
  newState : List TestDepedencyState
  dirs : List String
  externalDeps : List String
  localDeps : List String
  events : List Event
deriving Repr, DecidableEq

/-- The output of a successful run of the resolution phase. -/
structure RunResult where
  finalState : State
  externalDeps : List String
  localDeps : List String
  events : List Event
  dirs : List String
deriving Repr, DecidableEq

/-- Whether `pat` is a prefix of `s` (Rust `str::starts_with`). Stated
on the character lists so that it evaluates inside the kernel. -/
def strStarts (s pat : String) : Bool :=
  pat.data.isPrefixOf s.data

/-- Dropping the first `n` characters of a string (Rust
`strip_prefix` of a known `n`-character literal). -/
def strDropChars (s : String) (n : Nat) : String :=
  String.mk (s.data.drop n)

/-- Splitting a character list at `/` (the component decomposition
underlying `Path::new`). -/
def splitSlashAux : List Char → List Char → List (List Char)
  | [], acc => [acc.reverse]
  | c :: cs, acc =>
    if c = '/' then acc.reverse :: splitSlashAux cs []
    else splitSlashAux cs (c :: acc)

/-- Model of Rust `Path::new(s).file_name()`: the last `/`-separated
component after dropping empty and `.` components; `none` when there is
no component or the path terminates in `..`. -/
def rustFileName (s : String) : Option String :=
  let comps := ((splitSlashAux s.data []).map String.mk).filter
    (fun c => c != "" && c != ".")
  match comps.getLast? with
  | none => none
  | some c => if c = ".." then none else some c

/-- Target directory for an external dependency with the given basename
(`.test/external-dep/NAME` in the source). -/
def depPathOf (name : String) : String :=
  ".test/external-dep/" ++ name

/-- The symbolic ref queried for freshness: `refs/heads/BRANCH` when a
branch is given, `HEAD` otherwise (source lines 313-317). -/
def refNameOf (dep : TestDepedency) : String :=
  match dep.branch with
  | some b => "refs/heads/" ++ b
  | none => "HEAD"

/-- The path a local (`file:`) descriptor points at: `file://` strips to
an absolute path, a bare `file:` is joined onto the current directory
(source lines 240-249). -/
def localPathOf (cur : String) (uri : String) : String :=
  if strStarts uri "file://" then strDropChars uri 7
  else cur ++ "/" ++ strDropChars uri 5

/-- The `state_matches` check of source lines 321-325: some state entry
has this exact uri, branch and pinned sha. The recorded hash is not
consulted. -/
def stateMatches (stDeps : List TestDepedencyState) (dep : TestDepedency) : Bool :=
  stDeps.any (fun ds => ds.uri == dep.uri && ds.branch == dep.branch && ds.sha == dep.sha)

/-- The cache-hit check of source lines 359-373: an entry with the same
uri such that, when a pin is requested, the stored pin equals it;
otherwise the stored branch must not contradict the requested branch and
the stored hash must equal the just-queried branch head hash. -/
def cacheHit (stDeps : List TestDepedencyState) (dep : TestDepedency)
    (branchHeadSha : String) : Bool :=
  stDeps.any (fun ds =>
    if ds.uri != dep.uri then false
    else if dep.sha.isSome then ds.sha == dep.sha
    else if dep.branch.isSome && ds.branch != dep.branch then false
    else ds.hash == branchHeadSha)

/-- The freshly recorded state entry pushed after a successful clone
(source lines 438-443). -/
def newEntryOf (dep : TestDepedency) (branchHeadSha : String) : TestDepedencyState :=
  { uri := dep.uri, hash := branchHeadSha, branch := dep.branch, sha := dep.sha }

/-- Decidable equality of run results and errors. -/
instance instDecEqExcept {e a : Type} [DecidableEq e] [DecidableEq a] :
    DecidableEq (Except e a) := fun x y =>
  match x, y with
  | Except.error u, Except.error v =>
    match decEq u v with
    | isTrue h => isTrue (by rw [h])
    | isFalse h => isFalse (fun hh => h (by cases hh; rfl))
  | Except.error _, Except.ok _ => isFalse (fun hh => Except.noConfusion hh)
  | Except.ok _, Except.error _ => isFalse (fun hh => Except.noConfusion hh)
  | Except.ok u, Except.ok v =>
    match decEq u v with
    | isTrue h => isTrue (by rw [h])
    | isFalse h => isFalse (fun hh => h (by cases hh; rfl))

/-- The stale-copy invalidation of source lines 338-357: when no state
entry matches the descriptor exactly and the target directory exists,
delete the directory and drop every state entry of this URI from the
new state; otherwise leave the run state untouched. -/
def afterDelete (origDeps : List TestDepedencyState) (dep : TestDepedency)
    (depPath : String) (st : RunSt) : RunSt :=
  if !stateMatches origDeps dep && st.dirs.contains depPath then
    { st with
      dirs := st.dirs.filter (fun q => q != depPath),
      newState := st.newState.filter (fun ds => ds.uri != dep.uri) }
  else st

/-- The remote-check handling of one descriptor once the branch head
hash is known (source lines 318-452): invalidate a stale copy, then
either reuse the cached copy on a cache hit, or clone (failing if the
target directory still exists), hard-reset to the pin when given, and
record the new state entry. -/
def remoteStep (env : Env) (origDeps : List TestDepedencyState) (st : RunSt)
    (dep : TestDepedency) (depPath : String) (branchHeadSha : String) :
    Except String RunSt :=
  if cacheHit origDeps dep branchHeadSha then
    Except.ok { afterDelete origDeps dep depPath st with
      externalDeps := (afterDelete origDeps dep depPath st).externalDeps ++ [depPath] }
  else if (afterDelete origDeps dep depPath st).dirs.contains depPath then
    Except.error ("Failed to clone repository " ++ dep.uri)
  else if !env.resetOk dep.uri (dep.sha.getD branchHeadSha) then
    Except.error ("Failed to reset repository " ++ dep.uri ++ " to revision " ++
      dep.sha.getD branchHeadSha)
  else
    Except.ok { afterDelete origDeps dep depPath st with
      dirs := (afterDelete origDeps dep depPath st).dirs ++ [depPath],
      newState := (afterDelete origDeps dep depPath st).newState ++
        [newEntryOf dep branchHeadSha],
      externalDeps := (afterDelete origDeps dep depPath st).externalDeps ++ [depPath],
      events := (afterDelete origDeps dep depPath st).events ++
        [Event.cloneEv dep.uri depPath] }

/-- Processing of one dependency descriptor: the body of the `for dep in
deps` loop of `run_test_runner` (source lines 230-471). `origDeps` is
the state record loaded at startup — the loop reads it for its checks
while mutating `st.newState`. -/
def processDep (env : Env) (cur : String) (origDeps : List TestDepedencyState)
    (skipRemoteCheck : Bool) (st : RunSt) (dep : TestDepedency) :
    Except String RunSt :=
  if strStarts dep.uri "file:" then
    match env.localStat (localPathOf cur dep.uri) with
    | LocalStat.missing => Except.ok st
    | LocalStat.notDir => Except.ok st
    | LocalStat.dir =>
      Except.ok { st with localDeps := st.localDeps ++ [localPathOf cur dep.uri] }
  else
    match rustFileName dep.uri with
    | none => Except.error ("Invalid uri: " ++ dep.uri)
    | some depName =>
      if !skipRemoteCheck then
        if !env.gitInstalled then Except.error "git is not installed"
        else
          match env.lsRemote dep.uri with
          | none => Except.error (dep.uri ++ " is not a valid git repository")
          | some refMap =>
            match refMap.lookup (refNameOf dep) with
            | none =>
              Except.error ("Branch " ++ refNameOf dep ++
                " does not exist in repository " ++ dep.uri)
            | some branchHeadSha =>
              remoteStep env origDeps st dep (depPathOf depName) branchHeadSha
      else
        if origDeps.any (fun ds => ds.uri == dep.uri && ds.branch == dep.branch) then
          Except.ok { st with externalDeps := st.externalDeps ++ [depPathOf depName] }
        else
          Except.error ("State does not exist for test dependency " ++ dep.uri ++
            " @ branch " ++ dep.branch.getD "HEAD")

/-- The dependency loop itself, folding `processDep` over the declared
descriptors and aborting on the first error. -/
def runDeps (env : Env) (cur : String) (origDeps : List TestDepedencyState)
    (skipRemoteCheck : Bool) : RunSt → List TestDepedency → Except String RunSt
  | st, [] => Except.ok st
  | st, d :: ds =>
    match processDep env cur origDeps skipRemoteCheck st d with
    | Except.error e => Except.error e
    | Except.ok st1 => runDeps env cur origDeps skipRemoteCheck st1 ds

/-- The test-utils refresh of source lines 153-215: skipped entirely in
skip-remote-check mode; otherwise downloads the script and updates the
recorded version when the recorded version is absent or differs from the
running binary. -/
def luaPhase (env : Env) (st : State) (skipRemoteCheck : Bool) :
    Except String State :=
  if skipRemoteCheck then Except.ok st
  else
    match st.lua_test_utils with
    | some l =>
      if l.version != env.version then
        if env.downloadOk then
          Except.ok { st with lua_test_utils := some { version := env.version } }
        else Except.error "failed to download test-utils.lua"
      else Except.ok st
    | none =>
      if env.downloadOk then
        Except.ok { st with lua_test_utils := some { version := env.version } }
      else Except.error "failed to download test-utils.lua"

/-- The whole resolution phase of `run_test_runner` (source lines
153-480): the test-utils refresh, the early whole-record state write
(lines 217-224, only when remote checks are enabled), the dependency
loop, and the final whole-record state write (lines 474-480). -/
def resolveRun (env : Env) (cur : String) (skipRemoteCheck : Bool)
    (config : TestConfig) (state : State) (dirs0 : List String) :
    Except String RunResult :=
  match luaPhase env state skipRemoteCheck with
  | Except.error e => Except.error e
  | Except.ok stLua =>
    let ev0 : List Event :=
      if skipRemoteCheck then [] else [Event.writeStateEv stLua]
    let init : RunSt :=
      { newState := stLua.test_dependencies, dirs := dirs0,
        externalDeps := [], localDeps := [], events := ev0 }
    match runDeps env cur state.test_dependencies skipRemoteCheck init
        (config.test_dependencies.getD []) with
    | Except.error e => Except.error e
    | Except.ok st =>
      let finalState : State :=
        { test_dependencies := st.newState, lua_test_utils := stLua.lua_test_utils }
      Except.ok
        { finalState := finalState,
          externalDeps := st.externalDeps,
          localDeps := st.localDeps,
          events := st.events ++ [Event.writeStateEv finalState],
          dirs := st.dirs }

/-- The clone events among a run trace. -/
def cloneEvents (evs : List Event) : List Event :=
  evs.filter (fun e => match e with
    | Event.cloneEv _ _ => true
    | Event.writeStateEv _ => false)

/-- The state-record writes among a run trace, each carrying the whole
record that was written. -/
def stateWrites (evs : List Event) : List State :=
  evs.filterMap (fun e => match e with
    | Event.cloneEv _ _ => none
    | Event.writeStateEv s => some s)

/-- The four conventional glob patterns used when the configuration
declares none (source lines 483-488). -/
def defaultTestPaths : List String :=
  ["tests/**/*.lua", "test/**/*.lua", "lua/tests/**/*.lua", "lua/test/**/*.lua"]

/-- Successful matches of one expanded glob pattern, in match order;
per-match errors are logged and dropped (source lines 497-507). -/
def globSuccesses (entries : List (Except String String)) : List String :=
  entries.filterMap (fun e => match e with
    | Except.ok p => some p
    | Except.error _ => none)

/-- The test file locator (source lines 495-507): every pattern is
expanded in declaration order and all successful matches are appended,
in match order, to one list. -/
def locateTests (globOut : String → List (Except String String))
    (patterns : List String) : List String :=
  (patterns.map (fun p => globSuccesses (globOut p))).flatten

/-- The diagnostic marker substring scanned for in a test subprocess
stderr (source line 568). -/
def errorMarker : String := "Error detected while processing"

/-- Whether `pat` occurs as a contiguous substring of `cs`
(Rust `str::contains`). -/
def charsContain (pat : List Char) : List Char → Bool
  | [] => pat.isEmpty
  | c :: cs => pat.isPrefixOf (c :: cs) || charsContain pat cs

/-- Rust `stderr.contains(pat)` on our string model. -/
def strContainsSub (s pat : String) : Bool :=
  charsContain pat.data s.data

/-- Outcome classification of one executed test (source lines 555-584):
`true` is a pass. A non-zero exit is a failure; a zero exit is a failure
exactly when stderr is non-empty and contains the error marker. -/
def classifyTest (exitSuccess : Bool) (stderr : String) : Bool :=
  if !exitSuccess then false
  else if stderr.length > 0 && strContainsSub stderr errorMarker then false
  else true

/-- The parallel executor, as the per-test classification map: the
worker pool runs every discovered test to completion and collects one
boolean outcome per test (source lines 509-586). `exec` returns a test
subprocess exit success flag and captured stderr. -/
def executeTests (exec : String → Bool × String) (tests : List String) : List Bool :=
  tests.map (fun t => classifyTest (exec t).1 (exec t).2)

/-- The failed-test count of the aggregator (source line 589). -/
def numFailedTests (results : List Bool) : Nat :=
  (results.filter (fun x => !x)).length

/-- The terminal process exit code: 2 when `run_test_runner` returned an
error (`main`, source lines 601-607), else 1 when at least one test
failed (source line 595), else 0. -/
def processExitCode (outcome : Except String (List Bool)) : Nat :=
  match outcome with
  | Except.error _ => 2
  | Except.ok results => if numFailedTests results > 0 then 1 else 0

/-- The whole program after configuration loading: resolution, test
location, parallel execution. A resolution error aborts the run before
any test is located or executed. -/
def runTestRunner (env : Env) (cur : String) (skipRemoteCheck : Bool)
    (config : TestConfig) (state : State) (dirs0 : List String)
    (globOut : String → List (Except String String))
    (exec : String → Bool × String) :
    Except String (RunResult × List String × List Bool) :=
  match resolveRun env cur skipRemoteCheck config state dirs0 with
  | Except.error e => Except.error e
  | Except.ok rr =>
    let tests := locateTests globOut (config.test_paths.getD defaultTestPaths)
    Except.ok (rr, tests, executeTests exec tests)

/-- Everything one remote descriptor needs from the environment to
resolve: it is not a local reference, its URI has a basename, the
remote query yields a branch head hash, and a hard reset to the
requested revision succeeds. `names` and `heads` name the basename and
the branch head hash of each descriptor. -/
def depResolvable (env : Env) (names heads : TestDepedency → String)
    (d : TestDepedency) : Prop :=
  strStarts d.uri "file:" = false ∧
  rustFileName d.uri = some (names d) ∧
  (∃ m, env.lsRemote d.uri = some m ∧ m.lookup (refNameOf d) = some (heads d)) ∧
  env.resetOk d.uri (d.sha.getD (heads d)) = true

/-! ## Concrete instances used by the per-claim counterexamples and
witnesses -/

/-- Concrete glob oracle under which two patterns match the same file. -/
def c8Glob : String → List (Except String String) :=
  fun p => if p = "a" then [Except.ok "x.lua"]
    else [Except.ok "x.lua", Except.error "boom"]

/-- Concrete environment for the C10 witness. -/
def c10Env : Env :=
  { gitInstalled := true,
    lsRemote := fun u => if u = "u" then some [("refs/heads/b", "H")] else none,
    resetOk := fun _ _ => true, localStat := fun _ => LocalStat.missing,
    downloadOk := true, version := "1" }

/-- Prior state entries for the C10 witness: the same URI was recorded
for another branch. -/
def c10Orig : List TestDepedencyState :=
  [{ uri := "u", hash := "h0", branch := some "c", sha := none }]

/-- Run state entering the C10 witness step: the stale copy exists. -/
def c10St : RunSt :=
  { newState := [{ uri := "u", hash := "h0", branch := some "c", sha := none }],
    dirs := [".test/external-dep/u"], externalDeps := [], localDeps := [],
    events := [] }

/-- The C10 witness descriptor: same URI, different branch. -/
def c10Dep : TestDepedency := { uri := "u", branch := some "b", sha := none }

/-- Run state produced by the C10 witness step. -/
def c10St1 : RunSt :=
  { newState := [{ uri := "u", hash := "H", branch := some "b", sha := none }],
    dirs := [".test/external-dep/u"],
    externalDeps := [".test/external-dep/u"], localDeps := [],
    events := [Event.cloneEv "u" ".test/external-dep/u"] }

/-- Concrete environment for the C5 counterexample: the network oracle
answers nothing at all. -/
def c5Env : Env :=
  { gitInstalled := true, lsRemote := fun _ => none,
    resetOk := fun _ _ => false, localStat := fun _ => LocalStat.missing,
    downloadOk := true, version := "1" }

/-- The pinned descriptor of the C5 counterexample. -/
def c5Dep : TestDepedency := { uri := "u", branch := some "b", sha := some "p" }

/-- Prior state of the C5 counterexample: same URI and branch but a
different pin. -/
def c5State : State :=
  { test_dependencies := [{ uri := "u", hash := "h", branch := some "b", sha := some "q" }],
    lua_test_utils := none }

/-- Configuration of the C5 counterexample. -/
def c5Config : TestConfig :=
  { test_dependencies := some [c5Dep], test_paths := none }

/-- The state of the C4 witness run. -/
def c4wState : State := { test_dependencies := [], lua_test_utils := none }

/-- The environment of the C4 witness run. -/
def c4wEnv : Env :=
  { gitInstalled := true, lsRemote := fun _ => none,
    resetOk := fun _ _ => false, localStat := fun _ => LocalStat.missing,
    downloadOk := true, version := "1" }

/-- The configuration of the C4 witness run: no dependencies. -/
def c4wConfig : TestConfig := { test_dependencies := none, test_paths := none }

/-- The run result of the C4 witness run. -/
def c4wRR : RunResult :=
  { finalState := c4wState, externalDeps := [], localDeps := [],
    events := [Event.writeStateEv c4wState], dirs := [] }

/-- Concrete environment for the C4 counterexample. -/
def c4Env : Env :=
  { gitInstalled := true, lsRemote := fun _ => none,
    resetOk := fun _ _ => false, localStat := fun _ => LocalStat.missing,
    downloadOk := true, version := "1" }

/-- Prior state for the C4 counterexample (test-utils already current,
so the run has nothing to refresh). -/
def c4State : State :=
  { test_dependencies := [], lua_test_utils := some { version := "1" } }

/-- Configuration for the C4 counterexample: no dependencies at all. -/
def c4Config : TestConfig := { test_dependencies := none, test_paths := none }

/-- Concrete environment for C1: the remote branch head is now `new`. -/
def c1Env : Env :=
  { gitInstalled := true,
    lsRemote := fun u => if u = "u" then some [("refs/heads/b", "new")] else none,
    resetOk := fun _ _ => true, localStat := fun _ => LocalStat.missing,
    downloadOk := true, version := "1" }

/-- The C1 descriptor: unchanged URI and branch, no pin. -/
def c1Dep : TestDepedency := { uri := "u", branch := some "b", sha := none }

/-- Prior state for C1: the same descriptor was materialized at the old
branch head `old`. -/
def c1State : State :=
  { test_dependencies := [{ uri := "u", hash := "old", branch := some "b", sha := none }],
    lua_test_utils := some { version := "1" } }

/-- Configuration for C1. -/
def c1Config : TestConfig := { test_dependencies := some [c1Dep], test_paths := none }

/-- Concrete environment for the C2 counterexample; the remote never
changes between the two runs. -/
def c2Env : Env :=
  { gitInstalled := true,
    lsRemote := fun u2 => if u2 = "u" then some [("refs/heads/b", "H")] else none,
    resetOk := fun _ _ => true, localStat := fun _ => LocalStat.missing,
    downloadOk := true, version := "1" }

/-- Prior state for the C2 counterexample: same URI and pin as the
descriptor but a different recorded branch. -/
def c2State : State :=
  { test_dependencies :=
      [{ uri := "u", hash := "h0", branch := some "c", sha := some "p" }],
    lua_test_utils := some { version := "1" } }

/-- Configuration for the C2 counterexample: one pinned descriptor on
branch `b`. -/
def c2Config : TestConfig :=
  { test_dependencies := some [{ uri := "u", branch := some "b", sha := some "p" }],
    test_paths := none }

/-! ## Helper lemmas -/

/-- A string is non-empty exactly when its length is positive. -/
lemma string_ne_empty_iff_length_pos (s : String) : ¬ s = "" ↔ 0 < s.length := by
  cases s with
  | mk data =>
    constructor
    · intro h
      cases data with
      | nil => exact absurd rfl h
      | cons c cs => simp [String.length]
    · intro h he
      rw [he] at h
      simp [String.length] at h

/-- Filtering a string list for everything different from `p` removes
`p`. -/
lemma contains_filter_ne_self (l : List String) (p : String) :
    (l.filter (fun q => q != p)).contains p = false := by
  induction l with
  | nil => rfl
  | cons a l ih =>
    by_cases h : a = p
    · simp [List.filter_cons, h, ih]
    · simp [List.filter_cons, h, List.contains_cons, ih, bne_iff_ne, Ne.symm h]

/-- Membership check distributes over list concatenation. -/
lemma contains_append_eq (a b : List String) (x : String) :
    (a ++ b).contains x = (a.contains x || b.contains x) := by
  induction a with
  | nil => simp
  | cons y ys ih => simp [List.contains_cons, ih, Bool.or_assoc]

/-- State entries kept by the per-uri retain never match that uri. -/
lemma filter_ne_uri_then_eq (l : List TestDepedencyState) (u : String) :
    (l.filter (fun ds => ds.uri != u)).filter (fun ds => ds.uri == u) = [] := by
  induction l with
  | nil => rfl
  | cons a l ih =>
    by_cases h : a.uri = u
    · simp [List.filter_cons, h, ih]
    · simp [List.filter_cons, h, ih]

/-! ## Claim C6 -/

/-- Claim C6: for every executed test, a non-zero subprocess exit status
is classified as failure, and a zero exit status is classified as
failure exactly when the captured stderr is non-empty and contains the
error-marker string; in particular non-empty stderr without the marker
still passes. -/
theorem c6_outcome_classification (s : String) :
    classifyTest false s = false ∧
    (classifyTest true s = false ↔ (¬ s = "" ∧ strContainsSub s errorMarker = true)) := by
  refine ⟨rfl, ?_⟩
  rw [string_ne_empty_iff_length_pos]
  simp only [classifyTest, Bool.not_true, Bool.false_eq_true, if_false]
  by_cases hl : 0 < s.length
  · by_cases hm : strContainsSub s errorMarker = true
    · simp [hl, hm]
    · simp [hm]
  · have : s.length = 0 := Nat.eq_zero_of_not_pos hl
    simp [this]

/-! ## Claim C7 -/

/-- Claim C7: the executor runs every discovered test to completion (one
outcome per test), the aggregator reports exactly the number of
failing tests, the process terminates unsuccessfully exactly when that
number is positive, and the exit code for test failures (1) is distinct
from the exit code for a harness error (2). -/
theorem c7_aggregation (exec : String → Bool × String) (tests : List String)
    (e : String) :
    (executeTests exec tests).length = tests.length ∧
    numFailedTests (executeTests exec tests) =
      (tests.filter (fun t => !(classifyTest (exec t).1 (exec t).2))).length ∧
    (¬ processExitCode (Except.ok (executeTests exec tests)) = 0 ↔
      0 < numFailedTests (executeTests exec tests)) ∧
    processExitCode (Except.error e) = 2 ∧
    ¬ processExitCode (Except.ok (executeTests exec tests)) = 2 := by
  refine ⟨by simp [executeTests], ?_, ?_, rfl, ?_⟩
  · simp only [numFailedTests, executeTests, List.filter_map, List.length_map]
    rfl
  · by_cases h : 0 < numFailedTests (executeTests exec tests)
    · simp [processExitCode, h]
    · have h0 : numFailedTests (executeTests exec tests) = 0 := by omega
      simp [processExitCode, h0]
  · by_cases h : numFailedTests (executeTests exec tests) > 0 <;>
      simp [processExitCode, h]

/-! ## Claim C8 -/

/-- Claim C8 counterexample: with two patterns both matching `x.lua`,
the locator output contains `x.lua` twice — the output is not
deduplicated, refuting the claim that no path appears twice. -/
theorem c8_counterexample :
    locateTests c8Glob ["a", "b"] = ["x.lua", "x.lua"] ∧
    (locateTests c8Glob ["a", "b"]).count "x.lua" = 2 ∧
    ¬ (locateTests c8Glob ["a", "b"]).Nodup := by decide

/-- Claim C8 as amended: the locator output is the concatenation, in
pattern declaration order, of each pattern's successful matches in
match order (per-match errors dropped); it is not deduplicated — every
path occurs exactly as many times as patterns match it. -/
theorem c8_amended (globOut : String → List (Except String String))
    (ps qs : List String) (x : String) :
    locateTests globOut (ps ++ qs) =
      locateTests globOut ps ++ locateTests globOut qs ∧
    (locateTests globOut ps).count x =
      (ps.map (fun p => (globSuccesses (globOut p)).count x)).sum := by
  constructor
  · simp [locateTests]
  · induction ps with
    | nil => simp [locateTests]
    | cons p ps ih =>
      simp only [locateTests, List.map_cons, List.flatten_cons, List.count_append,
        List.map, List.sum_cons] at *
      omega

/-! ## Claim C9 -/

/-- Claim C9: a local (`file:`) descriptor whose path is missing or not
a directory is skipped — it changes nothing in the run state (in
particular it contributes no resolved path), and the run simply
proceeds with the remaining descriptors. -/
theorem c9_local_skip (env : Env) (cur : String)
    (origDeps : List TestDepedencyState) (skipRemoteCheck : Bool) (st : RunSt)
    (d : TestDepedency) (ds : List TestDepedency)
    (hfile : strStarts d.uri "file:" = true)
    (hstat : ¬ env.localStat (localPathOf cur d.uri) = LocalStat.dir) :
    processDep env cur origDeps skipRemoteCheck st d = Except.ok st ∧
    runDeps env cur origDeps skipRemoteCheck st (d :: ds) =
      runDeps env cur origDeps skipRemoteCheck st ds := by
  have h1 : processDep env cur origDeps skipRemoteCheck st d = Except.ok st := by
    rw [processDep, if_pos hfile]
    cases h : env.localStat (localPathOf cur d.uri) with
    | missing => rfl
    | notDir => rfl
    | dir => exact absurd h hstat
  exact ⟨h1, by simp only [runDeps, h1]⟩

/-- Witness for C9 at a concrete local descriptor whose path is
missing. -/
theorem c9_witness :
    processDep
      { gitInstalled := true, lsRemote := fun _ => none,
        resetOk := fun _ _ => false, localStat := fun _ => LocalStat.missing,
        downloadOk := true, version := "1" }
      "/w" [] false
      { newState := [], dirs := [], externalDeps := [], localDeps := [], events := [] }
      { uri := "file:missing-dir", branch := none, sha := none } =
      Except.ok
        { newState := [], dirs := [], externalDeps := [], localDeps := [], events := [] } ∧
    runDeps
      { gitInstalled := true, lsRemote := fun _ => none,
        resetOk := fun _ _ => false, localStat := fun _ => LocalStat.missing,
        downloadOk := true, version := "1" }
      "/w" [] false
      { newState := [], dirs := [], externalDeps := [], localDeps := [], events := [] }
      [{ uri := "file:missing-dir", branch := none, sha := none }] =
      runDeps
        { gitInstalled := true, lsRemote := fun _ => none,
          resetOk := fun _ _ => false, localStat := fun _ => LocalStat.missing,
          downloadOk := true, version := "1" }
        "/w" [] false
        { newState := [], dirs := [], externalDeps := [], localDeps := [], events := [] }
        [] :=
  c9_local_skip _ "/w" [] false _ _ [] (by decide) (by simp)

/-! ## Claim C10 -/

/-- Claim C10: when the stale-delete branch is taken for a remote
descriptor (no exact state match and the target directory exists),
every entry of the input new state whose URI equals the descriptor's
URI is dropped — whatever branch or pin those entries recorded — and
the only entry of that URI that can appear in the output is the freshly
recorded one (present exactly when the step went on to clone). -/
theorem c10_uri_entries_dropped (env : Env) (cur : String)
    (origDeps : List TestDepedencyState) (st st1 : RunSt) (d : TestDepedency)
    (n h : String) (m : List (String × String))
    (hfile : strStarts d.uri "file:" = false)
    (hname : rustFileName d.uri = some n)
    (hgit : env.gitInstalled = true)
    (hls : env.lsRemote d.uri = some m)
    (href : m.lookup (refNameOf d) = some h)
    (hmatch : stateMatches origDeps d = false)
    (hdisk : st.dirs.contains (depPathOf n) = true)
    (hok : processDep env cur origDeps false st d = Except.ok st1) :
    st1.newState.filter (fun ds => ds.uri == d.uri) =
      (if cacheHit origDeps d h then [] else [newEntryOf d h]) := by
  have hdel : afterDelete origDeps d (depPathOf n) st =
      { st with
        dirs := st.dirs.filter (fun q => q != depPathOf n),
        newState := st.newState.filter (fun ds => ds.uri != d.uri) } := by
    rw [afterDelete, if_pos]
    rw [hmatch, hdisk]
    rfl
  simp only [processDep, hfile, hname, hgit, hls, href, Bool.false_eq_true,
    if_false, Bool.not_true, Bool.not_false, if_true, ite_true, ite_false] at hok
  rw [remoteStep, hdel] at hok
  by_cases hc : cacheHit origDeps d h = true
  · rw [if_pos hc] at hok
    injection hok with h1
    rw [← h1]
    simp [hc, filter_ne_uri_then_eq]
  · have hc2 : cacheHit origDeps d h = false := Bool.eq_false_iff.mpr hc
    rw [if_neg hc] at hok
    simp only [contains_filter_ne_self, Bool.false_eq_true, if_false, ite_false] at hok
    cases hr : env.resetOk d.uri (d.sha.getD h) with
    | false =>
      rw [hr] at hok
      simp only [Bool.not_false, if_true, ite_true] at hok
      exact Except.noConfusion hok
    | true =>
      rw [hr] at hok
      simp only [Bool.not_true, Bool.false_eq_true, if_false, ite_false] at hok
      injection hok with h1
      rw [← h1]
      simp [hc2, List.filter_append, filter_ne_uri_then_eq, newEntryOf]

/-- Witness for C10: at the concrete invalidating step, the other-branch
entry of the URI is dropped and only the freshly cloned entry remains. -/
theorem c10_witness :
    c10St1.newState.filter (fun ds => ds.uri == c10Dep.uri) =
      (if cacheHit c10Orig c10Dep "H" then [] else [newEntryOf c10Dep "H"]) :=
  c10_uri_entries_dropped c10Env "/w" c10Orig c10St c10St1 c10Dep "u" "H"
    [("refs/heads/b", "H")] (by decide) (by decide) (by decide) (by decide)
    (by decide) (by decide) (by decide) (by decide)

/-! ## Claim C5 -/

/-- Claim C5 as amended: with remote checks disabled, a remote
descriptor resolves to its previously materialized target path exactly
when some state entry matches its URI and branch — the pin, if any, is
not consulted — and otherwise the run fails; the whole step is
independent of the environment (no network access) and of the current
directory. -/
theorem c5_amended (env env2 : Env) (cur cur2 : String)
    (origDeps : List TestDepedencyState) (st : RunSt) (d : TestDepedency)
    (n : String)
    (hfile : strStarts d.uri "file:" = false)
    (hname : rustFileName d.uri = some n) :
    (origDeps.any (fun ds => ds.uri == d.uri && ds.branch == d.branch) = true →
      processDep env cur origDeps true st d =
        Except.ok { st with externalDeps := st.externalDeps ++ [depPathOf n] }) ∧
    (origDeps.any (fun ds => ds.uri == d.uri && ds.branch == d.branch) = false →
      processDep env cur origDeps true st d =
        Except.error ("State does not exist for test dependency " ++ d.uri ++
          " @ branch " ++ d.branch.getD "HEAD")) ∧
    processDep env cur origDeps true st d = processDep env2 cur2 origDeps true st d := by
  refine ⟨?_, ?_, ?_⟩
  · intro hany
    simp [processDep, hfile, hname, hany]
  · intro hany
    simp [processDep, hfile, hname, hany]
  · simp [processDep, hfile, hname]

/-- Witness for C5 (amended): a concrete offline step with a matching
URI+branch entry resolves with no environment access. -/
theorem c5_witness :
    processDep
      { gitInstalled := false, lsRemote := fun _ => none,
        resetOk := fun _ _ => false, localStat := fun _ => LocalStat.missing,
        downloadOk := false, version := "1" }
      "/w" [{ uri := "u", hash := "h", branch := some "b", sha := some "q" }] true
      { newState := [], dirs := [], externalDeps := [], localDeps := [], events := [] }
      { uri := "u", branch := some "b", sha := some "p" } =
      Except.ok
        { newState := [], dirs := [], externalDeps := [".test/external-dep/u"],
          localDeps := [], events := [] } :=
  (c5_amended _
      { gitInstalled := true, lsRemote := fun _ => none,
        resetOk := fun _ _ => false, localStat := fun _ => LocalStat.missing,
        downloadOk := false, version := "1" }
      "/w" "/other" _ _ _ "u" (by decide) (by decide)).1 (by decide)

/-- Claim C5 counterexample: in skip-remote-check mode, no state entry
matches the requested pin, yet the run succeeds and resolves the path —
the claim that a given pin must also match (else the run fails) is
false; only URI and branch are consulted. -/
theorem c5_counterexample :
    c5State.test_dependencies.all (fun ds => ds.sha != c5Dep.sha) = true ∧
    (resolveRun c5Env "/w" true c5Config c5State []).map (fun rr => rr.externalDeps) =
      Except.ok [".test/external-dep/u"] := by decide

/-! ## Claim C4 -/

/-- `stateWrites` distributes over trace concatenation. -/
lemma stateWrites_append (a b : List Event) :
    stateWrites (a ++ b) = stateWrites a ++ stateWrites b := by
  simp [stateWrites]

/-- The remote-check step never writes the state file. -/
lemma remoteStep_events (env : Env) (origDeps : List TestDepedencyState)
    (st : RunSt) (d : TestDepedency) (p h : String) (st1 : RunSt)
    (hok : remoteStep env origDeps st d p h = Except.ok st1) :
    stateWrites st1.events = stateWrites st.events := by
  have hdel : (afterDelete origDeps d p st).events = st.events := by
    rw [afterDelete]
    split <;> rfl
  rw [remoteStep] at hok
  split at hok
  · injection hok with h1
    rw [← h1]
    simp [hdel]
  · split at hok
    · exact Except.noConfusion hok
    · split at hok
      · exact Except.noConfusion hok
      · injection hok with h1
        rw [← h1]
        simp [stateWrites_append, hdel, stateWrites]

/-- One resolution step never writes the state file: its event trace
grows by at most a clone event. -/
lemma processDep_events (env : Env) (cur : String)
    (origDeps : List TestDepedencyState) (skipRemoteCheck : Bool) (st st1 : RunSt)
    (d : TestDepedency)
    (h : processDep env cur origDeps skipRemoteCheck st d = Except.ok st1) :
    stateWrites st1.events = stateWrites st.events := by
  rw [processDep] at h
  repeat' split at h
  all_goals first
    | exact Except.noConfusion h
    | exact remoteStep_events _ _ _ _ _ _ _ h
    | (injection h with h1
       rw [← h1])

/-- The dependency loop never writes the state file. -/
lemma runDeps_stateWrites (env : Env) (cur : String)
    (origDeps : List TestDepedencyState) (skipRemoteCheck : Bool) :
    ∀ (L : List TestDepedency) (st st1 : RunSt),
    runDeps env cur origDeps skipRemoteCheck st L = Except.ok st1 →
    stateWrites st1.events = stateWrites st.events := by
  intro L
  induction L with
  | nil =>
    intro st st1 h
    rw [runDeps] at h
    injection h with h1
    rw [h1]
  | cons d ds ih =>
    intro st st1 h
    rw [runDeps] at h
    cases hp : processDep env cur origDeps skipRemoteCheck st d with
    | error e => rw [hp] at h; exact Except.noConfusion h
    | ok st2 =>
      rw [hp] at h
      rw [ih st2 st1 h, processDep_events env cur origDeps skipRemoteCheck st st2 d hp]

/-- Claim C4 as amended: on every successful run the state file is
written wholesale (the full record each time); it is written exactly
twice when remote checks are enabled — once right after the test-utils
refresh, before dependency resolution, and once after resolution — and
exactly once (after resolution) when remote checks are disabled; the
last write always carries the final record. -/
theorem c4_amended (env : Env) (cur : String) (skipRemoteCheck : Bool)
    (config : TestConfig) (state : State) (dirs0 : List String) (rr : RunResult)
    (hok : resolveRun env cur skipRemoteCheck config state dirs0 = Except.ok rr) :
    (stateWrites rr.events).length = (if skipRemoteCheck then 1 else 2) ∧
    (stateWrites rr.events).getLast? = some rr.finalState := by
  unfold resolveRun at hok
  cases hlua : luaPhase env state skipRemoteCheck with
  | error e => rw [hlua] at hok; exact Except.noConfusion hok
  | ok stLua =>
    rw [hlua] at hok
    simp only at hok
    cases hrd : runDeps env cur state.test_dependencies skipRemoteCheck
        { newState := stLua.test_dependencies, dirs := dirs0, externalDeps := [],
          localDeps := [],
          events := if skipRemoteCheck then [] else [Event.writeStateEv stLua] }
        (config.test_dependencies.getD []) with
    | error e => rw [hrd] at hok; exact Except.noConfusion hok
    | ok stf =>
      rw [hrd] at hok
      injection hok with h1
      rw [← h1]
      have hw := runDeps_stateWrites env cur state.test_dependencies skipRemoteCheck
        (config.test_dependencies.getD []) _ _ hrd
      simp only at hw
      simp only [stateWrites_append, hw]
      cases skipRemoteCheck <;> simp [stateWrites]

/-- Witness for C4 (amended): a concrete successful run with remote
checks disabled writes the state file exactly once, and the single
write carries the final record. -/
theorem c4_witness :
    (stateWrites c4wRR.events).length = (if true then 1 else 2) ∧
    (stateWrites c4wRR.events).getLast? = some c4wRR.finalState :=
  c4_amended c4wEnv "/w" true c4wConfig c4wState [] c4wRR (by decide)

/-- Claim C4 counterexample: a successful run with remote checks
enabled writes the state file twice (source lines 217-224 and 474-480),
refuting the claim that it is written exactly once per run. -/
theorem c4_counterexample :
    (resolveRun c4Env "/w" false c4Config c4State []).map
      (fun rr => (stateWrites rr.events).length) = Except.ok 2 := by decide

/-! ## Claim C1 -/

/-- Claim C1, evaluated at the failing input: the remote branch head
changed from `old` to `new` and the stale copy exists on disk, yet
`state_matches` (which ignores the recorded hash) is still true, so the
stale-delete branch is skipped; the cache-hit check then fails on the
hash and the program attempts to clone into the still-existing
directory, aborting the run — instead of deleting the stale copy,
re-cloning and recording the new hash as the claim states. -/
theorem c1_stale_head_aborts :
    stateMatches c1State.test_dependencies c1Dep = true ∧
    c1State.test_dependencies.all (fun ds => ds.hash != "new") = true ∧
    (c1Env.lsRemote "u").map (fun m => m.lookup (refNameOf c1Dep)) = some (some "new") ∧
    resolveRun c1Env "/w" false c1Config c1State [depPathOf "u"] =
      Except.error ("Failed to clone repository u") := by decide

/-! ## Two-run lemmas shared by the pin-precedence and idempotence
claims -/

/-- A fresh remote step: no exact state match, no cache hit, and no
directory on disk — the descriptor is cloned and its entry recorded. -/
lemma processDep_clone (env : Env) (cur : String)
    (origDeps : List TestDepedencyState) (st : RunSt) (d : TestDepedency)
    (n : String) (m : List (String × String)) (h : String)
    (hfile : strStarts d.uri "file:" = false)
    (hname : rustFileName d.uri = some n)
    (hgit : env.gitInstalled = true)
    (hls : env.lsRemote d.uri = some m)
    (href : m.lookup (refNameOf d) = some h)
    (hhit : cacheHit origDeps d h = false)
    (hdisk : st.dirs.contains (depPathOf n) = false)
    (hreset : env.resetOk d.uri (d.sha.getD h) = true) :
    processDep env cur origDeps false st d = Except.ok
      { st with
        newState := st.newState ++ [newEntryOf d h],
        dirs := st.dirs ++ [depPathOf n],
        externalDeps := st.externalDeps ++ [depPathOf n],
        events := st.events ++ [Event.cloneEv d.uri (depPathOf n)] } := by
  have hdel : afterDelete origDeps d (depPathOf n) st = st := by
    rw [afterDelete, if_neg]
    rw [hdisk]
    simp
  simp only [processDep, hfile, hname, hgit, hls, href, Bool.false_eq_true, if_false,
    Bool.not_true, Bool.not_false, if_true, ite_true, ite_false]
  simp only [remoteStep, hdel]
  rw [if_neg (by rw [hhit]; simp), if_neg (by rw [hdisk]; simp),
    if_neg (by rw [hreset]; simp)]

/-- A cache-hit remote step with an exact state match: the path is
reused and nothing else changes. -/
lemma processDep_hituse (env : Env) (cur : String)
    (origDeps : List TestDepedencyState) (st : RunSt) (d : TestDepedency)
    (n : String) (m : List (String × String)) (h : String)
    (hfile : strStarts d.uri "file:" = false)
    (hname : rustFileName d.uri = some n)
    (hgit : env.gitInstalled = true)
    (hls : env.lsRemote d.uri = some m)
    (href : m.lookup (refNameOf d) = some h)
    (hmatch : stateMatches origDeps d = true)
    (hhit : cacheHit origDeps d h = true) :
    processDep env cur origDeps false st d = Except.ok
      { st with externalDeps := st.externalDeps ++ [depPathOf n] } := by
  have hdel : afterDelete origDeps d (depPathOf n) st = st := by
    rw [afterDelete, if_neg]
    rw [hmatch]
    simp
  simp only [processDep, hfile, hname, hgit, hls, href, Bool.false_eq_true, if_false,
    Bool.not_true, Bool.not_false, if_true, ite_true, ite_false]
  simp only [remoteStep, hdel]
  rw [if_pos hhit]

/-- The loop on an empty descriptor list. -/
lemma runDeps_nil (env : Env) (cur : String) (origDeps : List TestDepedencyState)
    (skipRemoteCheck : Bool) (st : RunSt) :
    runDeps env cur origDeps skipRemoteCheck st [] = Except.ok st := by
  rw [runDeps]

/-- The loop after one successful step. -/
lemma runDeps_cons_ok (env : Env) (cur : String)
    (origDeps : List TestDepedencyState) (skipRemoteCheck : Bool) (st st1 : RunSt)
    (d : TestDepedency) (ds : List TestDepedency)
    (h : processDep env cur origDeps skipRemoteCheck st d = Except.ok st1) :
    runDeps env cur origDeps skipRemoteCheck st (d :: ds) =
      runDeps env cur origDeps skipRemoteCheck st1 ds := by
  rw [runDeps, h]

/-- The whole loop over fresh descriptors starting from an empty loaded
state: everything is cloned once, in order. -/
lemma runDeps_fresh (env : Env) (cur : String)
    (names heads : TestDepedency → String) (hgit : env.gitInstalled = true) :
    ∀ (L : List TestDepedency) (st : RunSt),
    (∀ d ∈ L, depResolvable env names heads d) →
    (∀ d ∈ L, st.dirs.contains (depPathOf (names d)) = false) →
    L.Pairwise (fun a b => ¬ depPathOf (names a) = depPathOf (names b)) →
    runDeps env cur [] false st L = Except.ok
      { newState := st.newState ++ L.map (fun d => newEntryOf d (heads d)),
        dirs := st.dirs ++ L.map (fun d => depPathOf (names d)),
        externalDeps := st.externalDeps ++ L.map (fun d => depPathOf (names d)),
        localDeps := st.localDeps,
        events := st.events ++ L.map (fun d => Event.cloneEv d.uri (depPathOf (names d))) }
  | [], st, _, _, _ => by
    rw [runDeps]
    simp
  | d :: ds, st, hres, hdisk, hpair => by
    obtain ⟨hfile, hname, ⟨m, hm, hlk⟩, hrst⟩ := hres d (List.mem_cons_self d ds)
    rw [runDeps_cons_ok env cur [] false st _ d ds
      (processDep_clone env cur [] st d (names d) m (heads d) hfile hname hgit hm hlk
        rfl (hdisk d (List.mem_cons_self d ds)) hrst)]
    have hpair2 := List.pairwise_cons.mp hpair
    rw [runDeps_fresh env cur names heads hgit ds _
      (fun d2 hd2 => hres d2 (List.mem_cons_of_mem d hd2))
      (fun d2 hd2 => by
        simp only [contains_append_eq, hdisk d2 (List.mem_cons_of_mem d hd2),
          Bool.false_or, List.contains_cons, List.contains_nil, Bool.or_false]
        exact beq_eq_false_iff_ne.mpr (fun he => hpair2.1 d2 hd2 he.symm))
      hpair2.2]
    simp [List.append_assoc]

/-- The whole loop when every descriptor has an exact state match and a
cache hit: only the paths are collected, nothing else changes. -/
lemma runDeps_allhit (env : Env) (cur : String)
    (origDeps : List TestDepedencyState) (names heads : TestDepedency → String)
    (hgit : env.gitInstalled = true) :
    ∀ (L : List TestDepedency) (st : RunSt),
    (∀ d ∈ L, depResolvable env names heads d) →
    (∀ d ∈ L, stateMatches origDeps d = true) →
    (∀ d ∈ L, cacheHit origDeps d (heads d) = true) →
    runDeps env cur origDeps false st L = Except.ok
      { st with externalDeps := st.externalDeps ++ L.map (fun d => depPathOf (names d)) }
  | [], st, _, _, _ => by
    rw [runDeps]
    simp
  | d :: ds, st, hres, hmatch, hhit => by
    obtain ⟨hfile, hname, ⟨m, hm, hlk⟩, _⟩ := hres d (List.mem_cons_self d ds)
    rw [runDeps_cons_ok env cur origDeps false st _ d ds
      (processDep_hituse env cur origDeps st d (names d) m (heads d) hfile hname hgit
        hm hlk (hmatch d (List.mem_cons_self d ds)) (hhit d (List.mem_cons_self d ds)))]
    rw [runDeps_allhit env cur origDeps names heads hgit ds _
      (fun d2 hd2 => hres d2 (List.mem_cons_of_mem d hd2))
      (fun d2 hd2 => hmatch d2 (List.mem_cons_of_mem d hd2))
      (fun d2 hd2 => hhit d2 (List.mem_cons_of_mem d hd2))]
    simp [List.append_assoc]

/-- The entry recorded for a descriptor matches that descriptor
exactly. -/
lemma stateMatches_selfEntry (L : List TestDepedency)
    (heads : TestDepedency → String) (d : TestDepedency) (hd : d ∈ L) :
    stateMatches (L.map (fun d2 => newEntryOf d2 (heads d2))) d = true := by
  rw [stateMatches, List.any_eq_true]
  exact ⟨newEntryOf d (heads d), List.mem_map_of_mem _ hd, by simp [newEntryOf]⟩

/-- The entry recorded for a descriptor is a cache hit for that
descriptor at its own branch head hash: for a pinned descriptor the pin
matches, otherwise the branch and the hash match. -/
lemma cacheHit_selfEntry (L : List TestDepedency)
    (heads : TestDepedency → String) (d : TestDepedency) (hd : d ∈ L) :
    cacheHit (L.map (fun d2 => newEntryOf d2 (heads d2))) d (heads d) = true := by
  rw [cacheHit, List.any_eq_true]
  refine ⟨newEntryOf d (heads d), List.mem_map_of_mem _ hd, ?_⟩
  simp [newEntryOf]

/-- When the recorded test-utils version equals the running binary,
the test-utils refresh leaves the state unchanged. -/
lemma luaPhase_current (env : Env) (st : State)
    (hv : st.lua_test_utils = some { version := env.version }) :
    luaPhase env st false = Except.ok st := by
  simp [luaPhase, hv]

/-- Unfolding of a successful resolution run from its two stages. -/
lemma resolveRun_eq (env : Env) (cur : String) (skipRemoteCheck : Bool)
    (config : TestConfig) (state : State) (dirs0 : List String)
    (stLua : State) (stf : RunSt) (deps : List TestDepedency)
    (hdeps : config.test_dependencies.getD [] = deps)
    (hlua : luaPhase env state skipRemoteCheck = Except.ok stLua)
    (hrd : runDeps env cur state.test_dependencies skipRemoteCheck
      { newState := stLua.test_dependencies, dirs := dirs0, externalDeps := [],
        localDeps := [],
        events := if skipRemoteCheck then [] else [Event.writeStateEv stLua] }
      deps = Except.ok stf) :
    resolveRun env cur skipRemoteCheck config state dirs0 = Except.ok
      { finalState :=
          { test_dependencies := stf.newState, lua_test_utils := stLua.lua_test_utils },
        externalDeps := stf.externalDeps, localDeps := stf.localDeps,
        events := stf.events ++ [Event.writeStateEv
          { test_dependencies := stf.newState, lua_test_utils := stLua.lua_test_utils }],
        dirs := stf.dirs } := by
  simp only [resolveRun, hlua, hdeps, hrd]

/-- Clone traces contain only themselves. -/
lemma cloneEvents_map_clone (L : List TestDepedency)
    (f g : TestDepedency → String) :
    cloneEvents (L.map (fun d => Event.cloneEv (f d) (g d))) =
      L.map (fun d => Event.cloneEv (f d) (g d)) := by
  induction L with
  | nil => rfl
  | cons d ds ih =>
    simp only [List.map_cons, cloneEvents, List.filter_cons] at ih ⊢
    simp [ih]

/-- `cloneEvents` distributes over trace concatenation. -/
lemma cloneEvents_append (a b : List Event) :
    cloneEvents (a ++ b) = cloneEvents a ++ cloneEvents b := by
  simp [cloneEvents]

/-! ## Claim C3 -/

/-- Claim C3: for a descriptor with a branch and a pinned revision,
resolved once (clone) and then again after the remote branch head
changed from `H1` to `H2` while the pin is unchanged, the second run is
a cache hit: it performs zero clones and leaves the persisted record
identical — pin equality, not the branch head hash, governs
freshness. -/
theorem c3_pin_precedence (env1 env2 : Env) (cur : String) (config : TestConfig)
    (u b p n H1 H2 : String) (m1 m2 : List (String × String)) (dirs0 : List String)
    (hdep : config.test_dependencies = some [{ uri := u, branch := some b, sha := some p }])
    (hfile : strStarts u "file:" = false)
    (hname : rustFileName u = some n)
    (hgit1 : env1.gitInstalled = true) (hgit2 : env2.gitInstalled = true)
    (hls1 : env1.lsRemote u = some m1)
    (href1 : m1.lookup ("refs/heads/" ++ b) = some H1)
    (hls2 : env2.lsRemote u = some m2)
    (href2 : m2.lookup ("refs/heads/" ++ b) = some H2)
    (hchange : ¬ H2 = H1)
    (hreset : env1.resetOk u p = true)
    (hdisk : dirs0.contains (depPathOf n) = false)
    (hver : env2.version = env1.version) :
    ∃ rr1 rr2,
      resolveRun env1 cur false config
        { test_dependencies := [], lua_test_utils := some { version := env1.version } }
        dirs0 = Except.ok rr1 ∧
      resolveRun env2 cur false config rr1.finalState rr1.dirs = Except.ok rr2 ∧
      rr1.finalState.test_dependencies =
        [{ uri := u, hash := H1, branch := some b, sha := some p }] ∧
      cloneEvents rr1.events = [Event.cloneEv u (depPathOf n)] ∧
      cloneEvents rr2.events = [] ∧
      rr2.finalState = rr1.finalState := by
  have hclone := processDep_clone env1 cur []
    { newState := [], dirs := dirs0, externalDeps := [], localDeps := [],
      events := [Event.writeStateEv
        { test_dependencies := [], lua_test_utils := some { version := env1.version } }] }
    { uri := u, branch := some b, sha := some p } n m1 H1 hfile hname hgit1 hls1 href1
    rfl hdisk hreset
  have hrd1 : runDeps env1 cur [] false
      { newState := [], dirs := dirs0, externalDeps := [], localDeps := [],
        events := [Event.writeStateEv
          { test_dependencies := [], lua_test_utils := some { version := env1.version } }] }
      [{ uri := u, branch := some b, sha := some p }] = Except.ok
      { newState := [{ uri := u, hash := H1, branch := some b, sha := some p }],
        dirs := dirs0 ++ [depPathOf n],
        externalDeps := [depPathOf n], localDeps := [],
        events := [Event.writeStateEv
            { test_dependencies := [], lua_test_utils := some { version := env1.version } },
          Event.cloneEv u (depPathOf n)] } := by
    rw [runDeps_cons_ok env1 cur [] false _ _ _ [] hclone, runDeps_nil]
    simp [newEntryOf]
  have h1 : resolveRun env1 cur false config
      { test_dependencies := [], lua_test_utils := some { version := env1.version } }
      dirs0 = Except.ok
      { finalState :=
          { test_dependencies := [{ uri := u, hash := H1, branch := some b, sha := some p }],
            lua_test_utils := some { version := env1.version } },
        externalDeps := [depPathOf n], localDeps := [],
        events := [Event.writeStateEv
            { test_dependencies := [], lua_test_utils := some { version := env1.version } },
          Event.cloneEv u (depPathOf n),
          Event.writeStateEv
            { test_dependencies := [{ uri := u, hash := H1, branch := some b, sha := some p }],
              lua_test_utils := some { version := env1.version } }],
        dirs := dirs0 ++ [depPathOf n] } := by
    have h0 := resolveRun_eq env1 cur false config
      { test_dependencies := [], lua_test_utils := some { version := env1.version } }
      dirs0
      { test_dependencies := [], lua_test_utils := some { version := env1.version } }
      { newState := [{ uri := u, hash := H1, branch := some b, sha := some p }],
        dirs := dirs0 ++ [depPathOf n],
        externalDeps := [depPathOf n], localDeps := [],
        events := [Event.writeStateEv
            { test_dependencies := [], lua_test_utils := some { version := env1.version } },
          Event.cloneEv u (depPathOf n)] }
      [{ uri := u, branch := some b, sha := some p }]
      (by simp [hdep]) (luaPhase_current env1 _ rfl) hrd1
    simpa using h0
  have hmatch2 : stateMatches [{ uri := u, hash := H1, branch := some b, sha := some p }]
      { uri := u, branch := some b, sha := some p } = true := by
    simp [stateMatches]
  have hhit2 : cacheHit [{ uri := u, hash := H1, branch := some b, sha := some p }]
      { uri := u, branch := some b, sha := some p } H2 = true := by
    simp [cacheHit]
  have hhituse := processDep_hituse env2 cur
    [{ uri := u, hash := H1, branch := some b, sha := some p }]
    { newState := [{ uri := u, hash := H1, branch := some b, sha := some p }],
      dirs := dirs0 ++ [depPathOf n], externalDeps := [], localDeps := [],
      events := [Event.writeStateEv
        { test_dependencies := [{ uri := u, hash := H1, branch := some b, sha := some p }],
          lua_test_utils := some { version := env1.version } }] }
    { uri := u, branch := some b, sha := some p } n m2 H2 hfile hname hgit2 hls2 href2
    hmatch2 hhit2
  have hrd2 : runDeps env2 cur
      [{ uri := u, hash := H1, branch := some b, sha := some p }] false
      { newState := [{ uri := u, hash := H1, branch := some b, sha := some p }],
        dirs := dirs0 ++ [depPathOf n], externalDeps := [], localDeps := [],
        events := [Event.writeStateEv
          { test_dependencies := [{ uri := u, hash := H1, branch := some b, sha := some p }],
            lua_test_utils := some { version := env1.version } }] }
      [{ uri := u, branch := some b, sha := some p }] = Except.ok
      { newState := [{ uri := u, hash := H1, branch := some b, sha := some p }],
        dirs := dirs0 ++ [depPathOf n],
        externalDeps := [depPathOf n], localDeps := [],
        events := [Event.writeStateEv
          { test_dependencies := [{ uri := u, hash := H1, branch := some b, sha := some p }],
            lua_test_utils := some { version := env1.version } }] } := by
    rw [runDeps_cons_ok env2 cur _ false _ _ _ [] hhituse, runDeps_nil]
    rfl
  have h2 : resolveRun env2 cur false config
      { test_dependencies := [{ uri := u, hash := H1, branch := some b, sha := some p }],
        lua_test_utils := some { version := env1.version } }
      (dirs0 ++ [depPathOf n]) = Except.ok
      { finalState :=
          { test_dependencies := [{ uri := u, hash := H1, branch := some b, sha := some p }],
            lua_test_utils := some { version := env1.version } },
        externalDeps := [depPathOf n], localDeps := [],
        events := [Event.writeStateEv
            { test_dependencies := [{ uri := u, hash := H1, branch := some b, sha := some p }],
              lua_test_utils := some { version := env1.version } },
          Event.writeStateEv
            { test_dependencies := [{ uri := u, hash := H1, branch := some b, sha := some p }],
              lua_test_utils := some { version := env1.version } }],
        dirs := dirs0 ++ [depPathOf n] } := by
    have h0 := resolveRun_eq env2 cur false config
      { test_dependencies := [{ uri := u, hash := H1, branch := some b, sha := some p }],
        lua_test_utils := some { version := env1.version } }
      (dirs0 ++ [depPathOf n])
      { test_dependencies := [{ uri := u, hash := H1, branch := some b, sha := some p }],
        lua_test_utils := some { version := env1.version } }
      { newState := [{ uri := u, hash := H1, branch := some b, sha := some p }],
        dirs := dirs0 ++ [depPathOf n],
        externalDeps := [depPathOf n], localDeps := [],
        events := [Event.writeStateEv
          { test_dependencies := [{ uri := u, hash := H1, branch := some b, sha := some p }],
            lua_test_utils := some { version := env1.version } }] }
      [{ uri := u, branch := some b, sha := some p }]
      (by simp [hdep]) (luaPhase_current env2 _ (by simp [hver])) hrd2
    simpa using h0
  exact ⟨_, _, h1, h2, rfl, rfl, rfl, rfl⟩

/-- Witness for C3 at a concrete pinned descriptor whose branch head
moved between the two runs. -/
theorem c3_witness :
    ∃ rr1 rr2,
      resolveRun
        { gitInstalled := true,
          lsRemote := fun u2 => if u2 = "u" then some [("refs/heads/b", "H1")] else none,
          resetOk := fun _ _ => true, localStat := fun _ => LocalStat.missing,
          downloadOk := true, version := "1" }
        "/w" false { test_dependencies := some [{ uri := "u", branch := some "b", sha := some "p" }], test_paths := none }
        { test_dependencies := [], lua_test_utils := some { version := "1" } }
        [] = Except.ok rr1 ∧
      resolveRun
        { gitInstalled := true,
          lsRemote := fun u2 => if u2 = "u" then some [("refs/heads/b", "H2")] else none,
          resetOk := fun _ _ => true, localStat := fun _ => LocalStat.missing,
          downloadOk := true, version := "1" }
        "/w" false { test_dependencies := some [{ uri := "u", branch := some "b", sha := some "p" }], test_paths := none }
        rr1.finalState rr1.dirs = Except.ok rr2 ∧
      rr1.finalState.test_dependencies =
        [{ uri := "u", hash := "H1", branch := some "b", sha := some "p" }] ∧
      cloneEvents rr1.events = [Event.cloneEv "u" (depPathOf "u")] ∧
      cloneEvents rr2.events = [] ∧
      rr2.finalState = rr1.finalState :=
  c3_pin_precedence
    { gitInstalled := true,
      lsRemote := fun u2 => if u2 = "u" then some [("refs/heads/b", "H1")] else none,
      resetOk := fun _ _ => true, localStat := fun _ => LocalStat.missing,
      downloadOk := true, version := "1" }
    { gitInstalled := true,
      lsRemote := fun u2 => if u2 = "u" then some [("refs/heads/b", "H2")] else none,
      resetOk := fun _ _ => true, localStat := fun _ => LocalStat.missing,
      downloadOk := true, version := "1" }
    "/w" { test_dependencies := some [{ uri := "u", branch := some "b", sha := some "p" }], test_paths := none }
    "u" "b" "p" "u" "H1" "H2" [("refs/heads/b", "H1")] [("refs/heads/b", "H2")] []
    rfl (by decide) (by decide) rfl rfl (by decide) (by decide) (by decide)
    (by decide) (by decide) rfl (by decide) rfl

/-! ## Claim C2 -/

/-- A clone trace headed by a state write. -/
lemma cloneEvents_cons_write (s : State) (evs : List Event) :
    cloneEvents (Event.writeStateEv s :: evs) = cloneEvents evs := by
  simp [cloneEvents, List.filter_cons]

/-- Claim C2 as amended: starting from a state record with no
dependency entries (and a current test-utils version), with pairwise
distinct target paths and no pre-existing target directory, running
resolution twice in a row with remote checks enabled and no remote-side
changes clones every descriptor exactly once on the first run, and on
the second run every descriptor takes the cache-hit path: zero clone
operations are performed and the persisted record is identical to the
first run's. (Without the empty-start restriction the claim is false:
see the counterexample, where a pre-existing entry with a matching pin
but a different recorded branch makes the first run delete the on-disk
copy while still reporting a cache hit, so the second run clones.) -/
theorem c2_amended (env : Env) (cur : String) (config : TestConfig)
    (L : List TestDepedency) (names heads : TestDepedency → String)
    (dirs0 : List String)
    (hdeps : config.test_dependencies = some L)
    (hgit : env.gitInstalled = true)
    (hres : ∀ d ∈ L, depResolvable env names heads d)
    (hdisk : ∀ d ∈ L, dirs0.contains (depPathOf (names d)) = false)
    (hdistinct : L.Pairwise (fun a b => ¬ depPathOf (names a) = depPathOf (names b))) :
    ∃ rr1 rr2,
      resolveRun env cur false config
        { test_dependencies := [], lua_test_utils := some { version := env.version } }
        dirs0 = Except.ok rr1 ∧
      resolveRun env cur false config rr1.finalState rr1.dirs = Except.ok rr2 ∧
      rr2.finalState = rr1.finalState ∧
      cloneEvents rr2.events = [] ∧
      (cloneEvents rr1.events).length = L.length := by
  have hrd1 := runDeps_fresh env cur names heads hgit L
    { newState := [], dirs := dirs0, externalDeps := [], localDeps := [],
      events := [Event.writeStateEv
        { test_dependencies := [], lua_test_utils := some { version := env.version } }] }
    hres hdisk hdistinct
  have h1 := resolveRun_eq env cur false config
    { test_dependencies := [], lua_test_utils := some { version := env.version } }
    dirs0
    { test_dependencies := [], lua_test_utils := some { version := env.version } }
    _ L (by simp [hdeps]) (luaPhase_current env _ rfl) hrd1
  have h1n : resolveRun env cur false config
      { test_dependencies := [], lua_test_utils := some { version := env.version } }
      dirs0 = Except.ok
      { finalState :=
          { test_dependencies := L.map (fun d => newEntryOf d (heads d)),
            lua_test_utils := some { version := env.version } },
        externalDeps := L.map (fun d => depPathOf (names d)),
        localDeps := [],
        events := Event.writeStateEv
            { test_dependencies := [], lua_test_utils := some { version := env.version } } ::
          (L.map (fun d => Event.cloneEv d.uri (depPathOf (names d))) ++
            [Event.writeStateEv
              { test_dependencies := L.map (fun d => newEntryOf d (heads d)),
                lua_test_utils := some { version := env.version } }]),
        dirs := dirs0 ++ L.map (fun d => depPathOf (names d)) } := by
    simpa using h1
  have hrd2 := runDeps_allhit env cur (L.map (fun d2 => newEntryOf d2 (heads d2)))
    names heads hgit L
    { newState := L.map (fun d2 => newEntryOf d2 (heads d2)),
      dirs := dirs0 ++ L.map (fun d => depPathOf (names d)),
      externalDeps := [], localDeps := [],
      events := [Event.writeStateEv
        { test_dependencies := L.map (fun d2 => newEntryOf d2 (heads d2)),
          lua_test_utils := some { version := env.version } }] }
    hres (fun d hd => stateMatches_selfEntry L heads d hd)
    (fun d hd => cacheHit_selfEntry L heads d hd)
  have h2 := resolveRun_eq env cur false config
    { test_dependencies := L.map (fun d2 => newEntryOf d2 (heads d2)),
      lua_test_utils := some { version := env.version } }
    (dirs0 ++ L.map (fun d => depPathOf (names d)))
    { test_dependencies := L.map (fun d2 => newEntryOf d2 (heads d2)),
      lua_test_utils := some { version := env.version } }
    _ L (by simp [hdeps]) (luaPhase_current env _ rfl) hrd2
  have h2n : resolveRun env cur false config
      { test_dependencies := L.map (fun d2 => newEntryOf d2 (heads d2)),
        lua_test_utils := some { version := env.version } }
      (dirs0 ++ L.map (fun d => depPathOf (names d))) = Except.ok
      { finalState :=
          { test_dependencies := L.map (fun d2 => newEntryOf d2 (heads d2)),
            lua_test_utils := some { version := env.version } },
        externalDeps := L.map (fun d => depPathOf (names d)),
        localDeps := [],
        events := [Event.writeStateEv
            { test_dependencies := L.map (fun d2 => newEntryOf d2 (heads d2)),
              lua_test_utils := some { version := env.version } },
          Event.writeStateEv
            { test_dependencies := L.map (fun d2 => newEntryOf d2 (heads d2)),
              lua_test_utils := some { version := env.version } }],
        dirs := dirs0 ++ L.map (fun d => depPathOf (names d)) } := by
    simpa using h2
  refine ⟨_, _, h1n, h2n, rfl, rfl, ?_⟩
  rw [cloneEvents_cons_write, cloneEvents_append, cloneEvents_map_clone]
  simp [cloneEvents]

/-- Witness for C2 (amended) at a single concrete branch-less
descriptor resolved twice from an empty state record. -/
theorem c2_witness :
    ∃ rr1 rr2,
      resolveRun
        { gitInstalled := true,
          lsRemote := fun u2 => if u2 = "u" then some [("HEAD", "H")] else none,
          resetOk := fun _ _ => true, localStat := fun _ => LocalStat.missing,
          downloadOk := true, version := "1" }
        "/w" false
        { test_dependencies := some [{ uri := "u", branch := none, sha := none }],
          test_paths := none }
        { test_dependencies := [], lua_test_utils := some { version := "1" } }
        [] = Except.ok rr1 ∧
      resolveRun
        { gitInstalled := true,
          lsRemote := fun u2 => if u2 = "u" then some [("HEAD", "H")] else none,
          resetOk := fun _ _ => true, localStat := fun _ => LocalStat.missing,
          downloadOk := true, version := "1" }
        "/w" false
        { test_dependencies := some [{ uri := "u", branch := none, sha := none }],
          test_paths := none }
        rr1.finalState rr1.dirs = Except.ok rr2 ∧
      rr2.finalState = rr1.finalState ∧
      cloneEvents rr2.events = [] ∧
      (cloneEvents rr1.events).length =
        [({ uri := "u", branch := none, sha := none } : TestDepedency)].length :=
  c2_amended
    { gitInstalled := true,
      lsRemote := fun u2 => if u2 = "u" then some [("HEAD", "H")] else none,
      resetOk := fun _ _ => true, localStat := fun _ => LocalStat.missing,
      downloadOk := true, version := "1" }
    "/w"
    { test_dependencies := some [{ uri := "u", branch := none, sha := none }],
      test_paths := none }
    [{ uri := "u", branch := none, sha := none }]
    (fun _ => "u") (fun _ => "H") []
    rfl rfl
    (fun d hd => by
      simp only [List.mem_singleton] at hd
      subst hd
      exact ⟨by decide, by decide, ⟨[("HEAD", "H")], rfl, by decide⟩, rfl⟩)
    (fun d hd => rfl)
    (by simp)

/-- Claim C2 counterexample: with an unchanged remote, running
resolution twice in a row from this starting state performs one clone
operation on the second run and persists a different record — the first
run deletes the on-disk copy (descriptor mismatch on the recorded
branch) yet still reports a cache hit through the matching pin, so the
second run re-clones. This refutes the claim for arbitrary starting
states. -/
theorem c2_counterexample :
    ((resolveRun c2Env "/w" false c2Config c2State [".test/external-dep/u"]).bind
      (fun rr1 => (resolveRun c2Env "/w" false c2Config rr1.finalState rr1.dirs).map
        (fun rr2 => ((cloneEvents rr2.events).length,
          decide (rr2.finalState = rr1.finalState))))) = Except.ok (1, false) := by
  decide

end TestRunner
